import Mathlib

/-!
Verification development for the Conversation Routing Engine of the
AudibleMind repository (backend/core/conversation).

Shallow embedding conventions:
- Python floats are modelled as exact rationals (all constants in the source
  are short decimals, and every comparison settled here is exact).
- External collaborators (the sentence-transformer embedder, the LLM
  providers, CouchDB get/save success) are modelled as explicit oracle
  parameters; a `Bool` oracle models whether a fallible external call
  succeeds, and an `Except String` value models the outcome of one call.
- Python dictionaries keyed by strings are modelled as association lists in
  insertion order (matching CPython dict iteration order, which the cache
  cleanup code relies on).
- Python exceptions absorbed by a `try/except` in the source become explicit
  `Option String`/`Bool` oracle branches; exceptions that the source
  re-raises become `Except.error` results.
-/

/-- Types of queries for different processing strategies
(query_classifier.py, class QueryType). -/
inductive QueryType where
  | new_topic
  | follow_up
  | clarification
  | related_topic
deriving DecidableEq, Repr

/-- Clean message representation without HyDE pollution
(query_classifier.py, dataclass ConversationMessage).  The free-form
metadata dict is modelled as an association list of string pairs. -/
structure ConversationMessage where
  message_id : String
  thread_id : String
  user_query : String
  ai_response : String
  timestamp : String
  query_type : QueryType
  context_used : Nat := 0
  metadata : List (String × String) := []
deriving DecidableEq, Repr

/-- Result of query classification
(query_classifier.py, dataclass QueryClassificationResult). -/
structure QueryClassificationResult where
  query_type : QueryType
  confidence : ℚ
  reasoning : String
  should_use_context : Bool
  context_weight : ℚ
deriving DecidableEq, Repr

/-- Python truthiness of an optional string argument (`if not thread_id`):
`None` and the empty string are falsy. -/
def pyTruthy : Option String → Bool
  | none => false
  | some s => !s.isEmpty

/-- Python tail slice `l[-n:]` for a nonnegative count n.  For n = 0 the
slice `l[-0:]` is the whole list; for n ≥ 1 it is the last n elements. -/
def pyTail (l : List α) (n : Nat) : List α :=
  if n = 0 then l else l.drop (l.length - n)

/-- The apostrophe character, used inside several lexical patterns. -/
def apos : Char := Char.ofNat 39

/-- ASCII word character, the `\w` class of the source regexes
(all pattern text and the concrete queries settled here are ASCII). -/
def isWordChar (c : Char) : Bool := c.isAlphanum || c == '_'

/-- Lower-cased character list of a string; the source compiles every
pattern with re.IGNORECASE, which we model by lower-casing both sides. -/
def lowerChars (s : String) : List Char := s.toList.map Char.toLower

/-- Phrase p occurs in q at position i with a word boundary on each side.
Every alternative in the source patterns begins and ends with a word
character, so `\b` before the phrase means "start of string or a non-word
character before", and symmetrically after. -/
def phraseMatchAt (q p : List Char) (i : Nat) : Bool :=
  ((q.drop i).take p.length == p) &&
  (i == 0 || !(isWordChar (q.getD (i - 1) ' '))) &&
  (decide (q.length ≤ i + p.length) || !(isWordChar (q.getD (i + p.length) ' ')))

/-- re.search of `\b(p)\b` for one phrase p: some position matches. -/
def phraseSearch (q p : List Char) : Bool :=
  (List.range (q.length + 1)).any (fun i => phraseMatchAt q p i)

/-- The negative lookahead `(?!.*\b(w1|w2|...)\b)` evaluated at position j:
true when some blocker word occurs (with boundaries) at a position k ≥ j
reachable from j without crossing a newline (`.` does not match newlines). -/
def lookaheadHit (q : List Char) (j : Nat) (ws : List (List Char)) : Bool :=
  (List.range (q.length + 1)).any (fun k =>
    decide (j ≤ k) && ((q.drop j).take (k - j)).all (fun c => c != '\n') &&
    ws.any (fun w => phraseMatchAt q w k))

/-- re.search of `\b(p1|p2|...)\b(?!.*\b(w1|...)\b)`: some phrase occurrence
whose lookahead fails. -/
def searchWithNegLookahead (q : List Char) (ps ws : List (List Char)) : Bool :=
  (List.range (q.length + 1)).any (fun i => ps.any (fun p =>
    phraseMatchAt q p i && !(lookaheadHit q (i + p.length) ws)))

/-- One compiled linguistic pattern of query_classifier.py.  Each source
regex is an alternation of literal phrases wrapped in word boundaries,
optionally anchored at the start (`^(...)`\b), optionally followed by a
negative lookahead excluding the back-reference words it/this/that. -/
inductive LexPattern where
  | alt (phrases : List String)
  | anchored (phrases : List String)
  | altNotFollowed (phrases blockers : List String)

/-- pattern.search(query) for one compiled pattern. -/
def pattern_matches (q : List Char) : LexPattern → Bool
  | .alt ps => ps.any (fun p => phraseSearch q p.toList)
  | .anchored ps => ps.any (fun p => phraseMatchAt q p.toList 0)
  | .altNotFollowed ps ws =>
      searchWithNegLookahead q (ps.map String.toList) (ws.map String.toList)

/-- "i don't understand" (apostrophe built explicitly). -/
def phr_i_dont_understand : String :=
  "i don" ++ String.mk [apos] ++ "t understand"

/-- "i'm confused". -/
def phr_im_confused : String := "i" ++ String.mk [apos] ++ "m confused"

/-- "don't get it". -/
def phr_dont_get_it : String := "don" ++ String.mk [apos] ++ "t get it"

/-- self.follow_up_patterns of query_classifier.py (11 regexes, in order). -/
def follow_up_patterns : List LexPattern :=
  [ .alt ["can you", "could you", "would you", "will you"],
    .alt ["tell me more", "explain", "elaborate", "describe"],
    .alt ["give me", "show me", "provide", "list"],
    .alt ["what about", "how about", "what if"],
    .alt ["also", "additionally", "furthermore", "moreover"],
    .alt ["it", "this", "that", "they", "them", "those", "these"],
    .alt ["he", "she", "his", "her", "their"],
    .anchored ["why", "how", "when", "where", "who", "which"],
    .alt ["examples", "example", "instance", "case", "sample"],
    .alt ["and", "but", "however", "although", "though"],
    .alt ["next", "then", "after", "before", "during"] ]

/-- self.clarification_patterns of query_classifier.py (4 regexes). -/
def clarification_patterns : List LexPattern :=
  [ .alt ["what do you mean", phr_i_dont_understand, "unclear", "confusing"],
    .alt ["can you clarify", "explain better", "more detail", "be more specific"],
    .alt [phr_im_confused, "not sure", phr_dont_get_it],
    .alt ["rephrase", "say that again", "repeat"] ]

/-- self.new_topic_indicators of query_classifier.py (5 regexes). -/
def new_topic_indicators : List LexPattern :=
  [ .alt ["what is", "what are", "define", "definition"],
    .altNotFollowed ["tell me about", "explain", "describe"] ["it", "this", "that"],
    .altNotFollowed ["how does", "how do", "how can", "how to"] ["it", "this", "that"],
    .alt ["compare", "difference between", "versus", "vs"],
    .alt ["pros and cons", "advantages", "disadvantages"] ]

/-- QueryClassifier._check_patterns: fraction of the patterns that match. -/
def check_patterns (query : String) (patterns : List LexPattern) : ℚ :=
  let q := lowerChars query
  let hits := (patterns.filter (pattern_matches q)).length
  if patterns.length > 0 then (hits : ℚ) / (patterns.length : ℚ) else 0

/-- QueryClassifier._calculate_semantic_similarity.  The sentence
transformer and the cosine computation over its vectors are external; the
oracle `sem` gives the cosine similarity of the embeddings of the query
and of the concatenated recent context text built here from the source. -/
def calculate_semantic_similarity (embAvail : Bool) (sem : String → String → ℚ)
    (query : String) (conversation_history : List ConversationMessage) : ℚ :=
  if !embAvail || conversation_history.isEmpty then 0
  else
    let recent_messages := pyTail conversation_history 6
    let context_texts :=
      recent_messages.foldr (fun m acc => m.user_query :: m.ai_response :: acc) []
    if context_texts.isEmpty then 0
    else sem query (String.intercalate " " context_texts)

/-- QueryClassifier.classify_query, body of the try block (the decision
table).  `sem`/`embAvail` model the embedder, `similarity_threshold` is the
constructor parameter (0.25 for the module-level instance). -/
def classify_query (sem : String → String → ℚ) (embAvail : Bool)
    (similarity_threshold : ℚ) (query : String)
    (conversation_history : List ConversationMessage)
    (thread_id : Option String) : QueryClassificationResult :=
  if conversation_history.isEmpty || !(pyTruthy thread_id) then
    { query_type := .new_topic, confidence := 1,
      reasoning := "No conversation history - starting new topic",
      should_use_context := false, context_weight := 0 }
  else
    let clarification_score := check_patterns query clarification_patterns
    if clarification_score > 3/10 then
      { query_type := .clarification, confidence := clarification_score,
        reasoning := "Clarification request detected",
        should_use_context := true, context_weight := 9/10 }
    else
      let follow_up_score := check_patterns query follow_up_patterns
      let semantic_score :=
        if !conversation_history.isEmpty && embAvail then
          calculate_semantic_similarity embAvail sem query conversation_history
        else 0
      let new_topic_score := check_patterns query new_topic_indicators
      let combined_follow_up_score := follow_up_score * (6/10) + semantic_score * (4/10)
      if combined_follow_up_score > similarity_threshold then
        if semantic_score > 4/10 then
          { query_type := .follow_up, confidence := min combined_follow_up_score 1,
            reasoning := "Follow-up detected",
            should_use_context := true, context_weight := 8/10 }
        else
          { query_type := .related_topic, confidence := min combined_follow_up_score 1,
            reasoning := "Related topic detected (linguistic patterns but lower semantic similarity)",
            should_use_context := true, context_weight := 6/10 }
      else if new_topic_score > 4/10 then
        { query_type := .new_topic, confidence := new_topic_score,
          reasoning := "New topic detected",
          should_use_context := false, context_weight := 0 }
      else
        { query_type := .follow_up, confidence := 3/10,
          reasoning := "Default to follow-up (ambiguous query with conversation history)",
          should_use_context := true, context_weight := 1/2 }

/-- QueryClassifier.classify_query including its outer try/except: `exc`
models an internal exception escaping the decision table (none of the pure
steps modelled above can raise, but the source guards against any). -/
def classify_query_run (exc : Option String) (sem : String → String → ℚ)
    (embAvail : Bool) (similarity_threshold : ℚ) (query : String)
    (conversation_history : List ConversationMessage)
    (thread_id : Option String) : QueryClassificationResult :=
  match exc with
  | some e =>
      { query_type := .new_topic, confidence := 1/10,
        reasoning := "Classification error: " ++ e ++ " - defaulting to new topic",
        should_use_context := false, context_weight := 0 }
  | none =>
      classify_query sem embAvail similarity_threshold query
        conversation_history thread_id

/-- One message as stored inside a CouchDB thread document
(clean_memory_manager.py, _persist_message body). -/
structure RawMsg where
  message_id : String
  user_query : String
  ai_response : String
  timestamp : String
  query_type : QueryType
  context_used : Nat
  metadata : List (String × String)
deriving DecidableEq, Repr

/-- A CouchDB thread document as written by CleanMemoryManager
(fields beyond the message list are carried for fidelity; the `_id` is the
association-list key). -/
structure ThreadDoc where
  created_at : String
  updated_at : String
  messages : List RawMsg
  message_count : Nat
  doc_metadata : List (String × String)
deriving DecidableEq, Repr

/-- The mutable state of CleanMemoryManager: the in-memory cache
(self.memory_cache) and the CouchDB threads database, both keyed by thread
id, in insertion order like a CPython dict. -/
structure MemState where
  cache : List (String × List ConversationMessage)
  db : List (String × ThreadDoc)
deriving DecidableEq, Repr

/-- Dict update d[k] = v preserving the insertion order of an existing key
(CPython dict semantics). -/
def assocSet (l : List (String × α)) (k : String) (v : α) : List (String × α) :=
  if l.any (fun p => p.1 == k) then
    l.map (fun p => if p.1 == k then (k, v) else p)
  else l ++ [(k, v)]

/-- Dict lookup d.get(k). -/
def assocGet (l : List (String × α)) (k : String) : Option α :=
  (l.find? (fun p => p.1 == k)).map Prod.snd

/-- self.cache_max_size of CleanMemoryManager. -/
def cache_max_size : Nat := 100

/-- CleanMemoryManager._cleanup_cache: when the cache exceeds its size cap,
drop all but the most recently inserted cache_max_size thread entries. -/
def cleanup_cache (cache : List (String × List ConversationMessage)) :
    List (String × List ConversationMessage) :=
  if cache.length > cache_max_size then cache.drop (cache.length - cache_max_size)
  else cache

/-- The document-level form of a ConversationMessage appended by
_persist_message. -/
def rawOfMessage (m : ConversationMessage) : RawMsg :=
  { message_id := m.message_id, user_query := m.user_query,
    ai_response := m.ai_response, timestamp := m.timestamp,
    query_type := m.query_type, context_used := m.context_used,
    metadata := m.metadata }

/-- The error carried by a failing CouchDB save, re-raised by
_persist_message and add_interaction. -/
def db_save_error : String := "Failed to save document"

/-- CleanMemoryManager._persist_message.  `getOk` models whether the
initial threads_db.get succeeds (its exception is swallowed, leaving
doc = None); `saveOk` models whether threads_db.save succeeds — a failing
save is logged and re-raised. -/
def persist_message (s : MemState) (getOk saveOk : Bool)
    (m : ConversationMessage) : Except String MemState :=
  let doc0 : Option ThreadDoc := if getOk then assocGet s.db m.thread_id else none
  let doc : ThreadDoc :=
    match doc0 with
    | some d => d
    | none =>
        { created_at := m.timestamp, updated_at := m.timestamp,
          messages := [], message_count := 0,
          doc_metadata := [("architecture", "streamlined_clean")] }
  let newMessages := doc.messages ++ [rawOfMessage m]
  let docMeta :=
    match assocGet m.metadata "user_id" with
    | some uid => assocSet doc.doc_metadata "user_id" uid
    | none => doc.doc_metadata
  let doc1 : ThreadDoc :=
    { doc with
      messages := newMessages,
      updated_at := m.timestamp,
      message_count := newMessages.length,
      doc_metadata := docMeta }
  if saveOk then .ok { s with db := assocSet s.db m.thread_id doc1 }
  else .error db_save_error

/-- CleanMemoryManager.add_interaction.  The uuid-based fresh message id
and the current UTC timestamp are supplied as `freshId` and `now`.  The
cache append happens before the persist, so the mutated cache survives a
persistence failure; the persistence error itself is re-raised
(`raise` in the except clause), modelled by the Except component. -/
def add_interaction (s : MemState) (getOk saveOk : Bool)
    (freshId now thread_id user_query ai_response : String)
    (query_type : QueryType) (context_used : Nat)
    (metadata : List (String × String)) :
    MemState × Except String ConversationMessage :=
  let message : ConversationMessage :=
    { message_id := freshId, thread_id := thread_id, user_query := user_query,
      ai_response := ai_response, timestamp := now, query_type := query_type,
      context_used := context_used, metadata := metadata }
  let old := (assocGet s.cache thread_id).getD []
  let s1 : MemState := { s with cache := assocSet s.cache thread_id (old ++ [message]) }
  match persist_message s1 getOk saveOk message with
  | .ok s2 => ({ s2 with cache := cleanup_cache s2.cache }, .ok message)
  | .error e => (s1, .error e)

/-- The ConversationMessage rebuilt from one stored document message
(the loop body of _load_messages_from_db). -/
def messageOfRaw (thread_id : String) (r : RawMsg) : ConversationMessage :=
  { message_id := r.message_id, thread_id := thread_id,
    user_query := r.user_query, ai_response := r.ai_response,
    timestamp := r.timestamp, query_type := r.query_type,
    context_used := r.context_used, metadata := r.metadata }

/-- CleanMemoryManager._load_messages_from_db.  `dbGetOk` models whether
threads_db.get succeeds; every failure path of the source returns []. -/
def load_messages_from_db (s : MemState) (dbGetOk : Bool)
    (thread_id : String) (limit : Int) : List ConversationMessage :=
  if !dbGetOk then []
  else
    match assocGet s.db thread_id with
    | none => []
    | some doc =>
        let raw := if limit > 0 then pyTail doc.messages limit.toNat else doc.messages
        raw.map (messageOfRaw thread_id)

/-- CleanMemoryManager.get_conversation_history with its cache-repopulation
side effect (self.memory_cache[thread_id] = messages on a successful
database load).  A nonempty cached entry is served directly, sliced to the
last `limit` messages when limit > 0. -/
def get_conversation_history_st (s : MemState) (dbGetOk : Bool)
    (thread_id : String) (limit : Int) :
    MemState × List ConversationMessage :=
  let fromDb : MemState × List ConversationMessage :=
    let messages := load_messages_from_db s dbGetOk thread_id limit
    (if messages.isEmpty then s
     else { s with cache := assocSet s.cache thread_id messages }, messages)
  match assocGet s.cache thread_id with
  | some cached =>
      if !cached.isEmpty then
        (s, if limit > 0 then pyTail cached limit.toNat else cached)
      else fromDb
  | none => fromDb

/-- The list returned by get_conversation_history (read-only view). -/
def get_conversation_history (s : MemState) (dbGetOk : Bool)
    (thread_id : String) (limit : Int) : List ConversationMessage :=
  (get_conversation_history_st s dbGetOk thread_id limit).2

/-- CleanMemoryManager.get_context_for_query: a type-dependent window over
the last 20 history messages.  NEW_TOPIC gets no context, CLARIFICATION the
last exchange (2 messages), RELATED_TOPIC the last 4, FOLLOW_UP the last
max_context_messages (6 at every call site). -/
def get_context_for_query_st (s : MemState) (dbGetOk : Bool)
    (thread_id : String) (query_type : QueryType)
    (max_context_messages : Nat) :
    MemState × List ConversationMessage :=
  let h := get_conversation_history_st s dbGetOk thread_id 20
  let all_messages := h.2
  if all_messages.isEmpty then (h.1, [])
  else
    let context_messages :=
      match query_type with
      | .new_topic => []
      | .clarification => pyTail all_messages 2
      | .follow_up => pyTail all_messages max_context_messages
      | .related_topic => pyTail all_messages 4
    (h.1, context_messages)

/-- The list returned by get_context_for_query (read-only view). -/
def get_context_for_query (s : MemState) (dbGetOk : Bool)
    (thread_id : String) (query_type : QueryType)
    (max_context_messages : Nat) : List ConversationMessage :=
  (get_context_for_query_st s dbGetOk thread_id query_type max_context_messages).2

/-- StreamlinedConversationManager._generate_thread_id:
"thread_" + uuid4().hex[:12] + "_" + str(int(time.time())).  The random
hex component and the integer clock second are supplied explicitly. -/
def generate_thread_id (hexPart : String) (epochSeconds : Nat) : String :=
  "thread_" ++ hexPart ++ "_" ++ toString epochSeconds

/-- The per-call apologetic fallback of
ResponseGenerator._generate_single_response. -/
def apology_response : String :=
  "I apologize, but I encountered an error while generating this response. Please try again."

/-- The per-branch fallback used when one gathered HyDE task surfaces an
exception in generate_hyde_response. -/
def variation_apology : String :=
  "I apologize, but I encountered an error generating this response variation. Please try again."

/-- ResponseGenerator._generate_single_response: a provider call outcome is
returned as-is on success and replaced by a fixed apology on any error
(unsupported provider, unconfigured OpenAI client, or a provider failure —
the except clause catches them all and never re-raises). -/
def generate_single_response (llmResult : Except String String) : String :=
  match llmResult with
  | .ok r => r
  | .error _ => apology_response

/-- The generic fallback prompt appended by the padding loop of
_parse_hyde_questions, numbered by the position it fills. -/
def generic_variation_prompt (n : Nat) : String :=
  "Please provide more details about this topic (variation " ++ toString n ++ ")."

/-- Python str.strip() on a character list: drop leading and trailing
whitespace. -/
def pyStrip (cs : List Char) : List Char :=
  ((cs.dropWhile Char.isWhitespace).reverse.dropWhile Char.isWhitespace).reverse

/-- Python str.split(sep) for a one-character separator, keeping empty
pieces, over a character list. -/
def splitOnChar (sep : Char) (cs : List Char) : List (List Char) :=
  cs.foldr (fun c acc =>
    match acc with
    | [] => [[c]]
    | l :: ls => if c = sep then [] :: l :: ls else (c :: l) :: ls) [[]]

/-- Python str.split on a character class, keeping empty pieces, over a
character list (empty pieces are filtered by the callers, matching the
empty-discarding behaviour of the no-argument str.split()). -/
def splitOnCharP (p : Char → Bool) (cs : List Char) : List (List Char) :=
  cs.foldr (fun c acc =>
    match acc with
    | [] => [[c]]
    | l :: ls => if p c then [] :: l :: ls else (c :: l) :: ls) [[]]

/-- A line starts with "1.", "2." or "3.". -/
def isNumberedLine (line : List Char) : Bool :=
  [['1', '.'], ['2', '.'], ['3', '.']].any (fun p => p.isPrefixOf line)

/-- The stripped nonempty lines of the raw LLM response
(`[line.strip() for line in hyde_response.split(newline) if line.strip()]`). -/
def cleanLines (hyde_response : String) : List (List Char) :=
  ((splitOnChar '\n' hyde_response.toList).map pyStrip).filter (fun l => !l.isEmpty)

/-- The accumulation loop of _parse_hyde_questions: a numbered line
contributes the text after its "n." prefix (when nonempty after
stripping); an unnumbered line longer than 20 characters is taken as a
fallback question while fewer than three have been collected.  For a
numbered line the first "." sits at index 1, so split(".", 1)[1] is the
text from index 2 on. -/
def extract_questions (lines : List (List Char)) : List String :=
  lines.foldl (fun questions line =>
    if isNumberedLine line then
      let question := pyStrip (line.drop 2)
      if !question.isEmpty then questions ++ [String.mk question] else questions
    else if questions.length < 3 && line.length > 20 then questions ++ [String.mk line]
    else questions) []

/-- The `while len(questions) < 3` padding loop of _parse_hyde_questions:
append generic prompts numbered len+1 until three questions exist. -/
def padQuestions : List String → List String
  | [] => [generic_variation_prompt 1, generic_variation_prompt 2, generic_variation_prompt 3]
  | [a] => [a, generic_variation_prompt 2, generic_variation_prompt 3]
  | [a, b] => [a, b, generic_variation_prompt 3]
  | qs => qs

/-- ResponseGenerator._parse_hyde_questions: extract, pad to three,
truncate to the first three. -/
def parse_hyde_questions (hyde_response : String) : List String :=
  (padQuestions (extract_questions (cleanLines hyde_response))).take 3

/-- The three fallback questions returned by _generate_hyde_questions when
the reframing step itself raises (f-strings over the query). -/
def fallback_questions (query : String) : List String :=
  [ "What are the fundamental concepts and principles behind: " ++ query ++ "?",
    "How do the different components and systems related to " ++ String.mk [apos] ++ query
      ++ String.mk [apos] ++ " work together?",
    "What are the practical applications and real-world implementations of: " ++ query ++ "?" ]

/-- ResponseGenerator._generate_hyde_questions.  The reframing LLM call is
made through _generate_single_response (which already absorbs provider
errors into an apology text that is then parsed); `reframeExc` models an
unexpected exception in this step, answered with the fixed fallback
questions. -/
def generate_hyde_questions (query : String) (reframeExc : Option String)
    (reframeLLM : Except String String) : List String :=
  match reframeExc with
  | some _ => fallback_questions query
  | none => parse_hyde_questions (generate_single_response reframeLLM)

/-- The fixed key set of the exploratory result
(generate_hyde_response, question_keys). -/
def question_keys : List String := ["query_A", "query_B", "query_C"]

/-- The whole-request fallback text of generate_hyde_response. -/
def hyde_fallback_response (query : String) : String :=
  "I apologize, but I encountered an error while processing your query about: "
    ++ query ++ ". Please try again."

/-- ResponseGenerator.generate_hyde_response, keyed response set only.
`hydeExc` models the outer try/except (total failure: all three keys get
the same fallback text); otherwise the three questions are zipped with the
fixed keys and answered concurrently — `branchExc i` models an exception
surfaced by asyncio.gather for branch i (replaced by the per-branch
variation apology) and `branchLLM i question` the i-th provider call
(whose own errors _generate_single_response absorbs). -/
def generate_hyde_response (query : String) (hydeExc : Option String)
    (reframeExc : Option String) (reframeLLM : Except String String)
    (branchExc : Nat → Option String)
    (branchLLM : Nat → String → Except String String) :
    List (String × String) :=
  match hydeExc with
  | some _ => question_keys.map (fun k => (k, hyde_fallback_response query))
  | none =>
      let hyde_questions := generate_hyde_questions query reframeExc reframeLLM
      (question_keys.zip hyde_questions).mapIdx (fun i kq =>
        (kq.1,
          match branchExc i with
          | some _ => variation_apology
          | none => generate_single_response (branchLLM i kq.2)))

/-- ResponseGenerator._build_context_text: the numbered
Exchange/User/Assistant rendering of the context window. -/
def build_context_text (conversation_context : List ConversationMessage) : String :=
  if conversation_context.isEmpty then "No previous conversation context."
  else
    String.intercalate "\n"
      ((conversation_context.mapIdx (fun i m =>
        ["Exchange " ++ toString (i + 1) ++ ":",
         "User: " ++ m.user_query,
         "Assistant: " ++ m.ai_response,
         ""])).flatten)

/-- The fallback of generate_contextual_response's outer try/except. -/
def contextual_fallback_response : String :=
  "I apologize, but I encountered an error while processing your follow-up question. Please try rephrasing your query."

/-- ResponseGenerator.generate_contextual_response, response text only.
The single provider call receives the contextual prompt built from the
context window and the query; its own errors become the apology text
inside _generate_single_response, and `ctxExc` models an unexpected
exception in this step (answered with the contextual fallback). -/
def generate_contextual_response (query : String)
    (conversation_context : List ConversationMessage) (ctxExc : Option String)
    (ctxLLM : String → String → Except String String) : String :=
  match ctxExc with
  | some _ => contextual_fallback_response
  | none =>
      generate_single_response (ctxLLM (build_context_text conversation_context) query)

/-- The discriminated response payload of the orchestrator result:
the three-keyed exploratory set for NEW_TOPIC, a single string otherwise
(hyde_responses vs direct_response in the result dict). -/
inductive ResponsePayload where
  | hyde (responses : List (String × String))
  | direct (response : String)
deriving DecidableEq, Repr

/-- The caller-facing result dictionary built by
StreamlinedConversationManager.process_query (the fields the claims are
about; `error` is the "error" key of the failure dictionary, absent on
success). -/
structure ProcessResult where
  thread_id : String
  query : String
  query_type : QueryType
  was_continuation : Bool
  context_messages_used : Nat
  classification_confidence : ℚ
  classification_reasoning : String
  error : Option String
  message_id : Option String
  payload : ResponsePayload
deriving DecidableEq, Repr

/-- All external-effect oracles one process_query call consumes. -/
structure Oracles where
  sem : String → String → ℚ
  embAvail : Bool
  classifierExc : Option String
  hydeExc : Option String
  reframeExc : Option String
  reframeLLM : Except String String
  branchExc : Nat → Option String
  branchLLM : Nat → String → Except String String
  ctxExc : Option String
  ctxLLM : String → String → Except String String
  dbGetOk : Bool
  persistGetOk : Bool
  persistSaveOk : Bool

/-- The apology of the orchestrator-level failure dictionary. -/
def processing_error_response : String :=
  "I apologize, but I encountered an error processing your request. Please try again."

/-- StreamlinedConversationManager.process_query.  Fresh values the source
draws from uuid/time (`freshTid`, `freshMsgId`, `now`) are explicit.
The module-level classifier is constructed with similarity_threshold 0.25.
Steps follow the source: resolve/mint the thread id, load history (limit
10), classify (thread id passed only when history is nonempty), fetch the
type-dependent context window when should_use_context, generate by branch,
choose the persisted response (query_A for HyDE, the single string
otherwise), persist via add_interaction, and assemble the result; the
outer try/except turns the re-raised persistence error — the only
raising step — into the failure dictionary. -/
def process_query (s : MemState) (o : Oracles) (query : String)
    (threadId : Option String) (user_id provider : String)
    (freshTid freshMsgId now : String) : MemState × ProcessResult :=
  let tid : String :=
    if pyTruthy threadId then threadId.getD freshTid else freshTid
  let h := get_conversation_history_st s o.dbGetOk tid 10
  let s1 := h.1
  let conversation_history := h.2
  let classification :=
    classify_query_run o.classifierExc o.sem o.embAvail (1/4) query
      conversation_history
      (if conversation_history.isEmpty then none else some tid)
  let c :=
    if classification.should_use_context then
      get_context_for_query_st s1 o.dbGetOk tid classification.query_type 6
    else (s1, [])
  let s2 := c.1
  let context_messages := c.2
  let payload : ResponsePayload :=
    if classification.query_type = .new_topic then
      .hyde (generate_hyde_response query o.hydeExc o.reframeExc o.reframeLLM
        o.branchExc o.branchLLM)
    else
      .direct (generate_contextual_response query context_messages o.ctxExc o.ctxLLM)
  let chosen_response : String :=
    match payload with
    | .hyde responses => (assocGet responses "query_A").getD ""
    | .direct response => response
  let metadata : List (String × String) :=
    [("user_id", user_id), ("provider", provider)]
  let a :=
    add_interaction s2 o.persistGetOk o.persistSaveOk freshMsgId now tid query
      chosen_response classification.query_type context_messages.length metadata
  match a.2 with
  | .ok message =>
      (a.1,
       { thread_id := tid, query := query,
         query_type := classification.query_type,
         was_continuation := classification.should_use_context,
         context_messages_used := context_messages.length,
         classification_confidence := classification.confidence,
         classification_reasoning := classification.reasoning,
         error := none, message_id := some message.message_id,
         payload := payload })
  | .error e =>
      (a.1,
       { thread_id := tid, query := query, query_type := .new_topic,
         was_continuation := false, context_messages_used := 0,
         classification_confidence := 0,
         classification_reasoning := "Processing failed: " ++ e,
         error := some e, message_id := none,
         payload := .direct processing_error_response })

/-- Result of relevance scoring between queries
(context_manager.py, dataclass RelevanceResult; the unused related_context
field is omitted). -/
structure RelevanceResult where
  score : ℚ
  is_continuation : Bool
  reasoning : String
deriving DecidableEq, Repr

/-- Python str.split() on a lowered string: split on whitespace runs,
dropping empty pieces (new_query.lower().split()). -/
def pyWords (s : String) : List String :=
  (((splitOnCharP Char.isWhitespace (s.toList.map Char.toLower))).filter
    (fun w => !w.isEmpty)).map String.mk

/-- The lexical component of analyze_query_relevance: the fraction of the
distinct query words also present in the context words, clamped to 1
(min(overlap / len(query_words), 1.0)); 0 when either word set is empty. -/
def word_overlap_ratio (new_query combined_context : String) : ℚ :=
  if !((pyWords combined_context).dedup.isEmpty) && !((pyWords new_query).dedup.isEmpty) then
    min ((((pyWords new_query).dedup.filter
      (fun w => (pyWords combined_context).dedup.contains w)).length : ℚ)
      / (((pyWords new_query).dedup.length : ℚ))) 1
  else 0

/-- The combined relevance score of analyze_query_relevance:
70% semantic + 30% word overlap, scaled to the 0–10 decision range. -/
def combined_relevance_score (semantic_score word_overlap_score : ℚ) : ℚ :=
  (semantic_score * (7/10) + word_overlap_score * (3/10)) * 10

/-- ConversationContextManager.analyze_query_relevance.  `memContents tid`
models the content strings of the LangChain memory messages of a thread
(memory.chat_memory.messages, every one of which has .content), and `sem`
the cosine similarity of the two get_query_embedding vectors (the inner
try/except that degrades a failed embedding to semantic 0 is part of the
oracle).  The default limit_contexts is 5, so the last 10 messages form
the combined context. -/
def analyze_query_relevance (memContents : String → List String)
    (sem : String → String → ℚ) (continuation_threshold : ℚ)
    (new_query : String) (thread_id : Option String)
    (limit_contexts : Nat) : RelevanceResult :=
  let best_score : ℚ :=
    if pyTruthy thread_id then
      let conversation_history := memContents (thread_id.getD "")
      if conversation_history.isEmpty then 0
      else
        let context_texts := pyTail conversation_history (limit_contexts * 2)
        if context_texts.isEmpty then 0
        else
          let combined_context := String.intercalate " " context_texts
          let word_overlap_score := word_overlap_ratio new_query combined_context
          let semantic_score := sem new_query combined_context
          combined_relevance_score semantic_score word_overlap_score
    else 0
  let is_continuation : Bool := decide (best_score ≥ continuation_threshold)
  { score := best_score, is_continuation := is_continuation,
    reasoning :=
      if is_continuation then "Found related context"
      else "Starting new independent query" }

theorem pyTail_zero (l : List α) : pyTail l 0 = l := by
  simp [pyTail]

theorem pyTail_length (l : List α) (n : Nat) (hn : 0 < n) :
    (pyTail l n).length = min n l.length := by
  unfold pyTail
  rw [if_neg (Nat.pos_iff_ne_zero.mp hn)]
  rw [List.length_drop]
  omega

theorem pyTail_suffix (l : List α) (n : Nat) : pyTail l n <:+ l := by
  unfold pyTail
  split
  · exact List.suffix_refl l
  · exact List.drop_suffix _ l

theorem pyTail_map (f : α → β) (l : List α) (n : Nat) :
    pyTail (l.map f) n = (pyTail l n).map f := by
  by_cases hn : n = 0 <;> simp [pyTail, hn, List.map_drop]

theorem pyTail_ne_nil (l : List α) (n : Nat) (h : l ≠ []) : pyTail l n ≠ [] := by
  unfold pyTail
  split
  · exact h
  · next hn =>
    have hl : 0 < l.length := List.length_pos.mpr h
    have : (l.drop (l.length - n)).length = l.length - (l.length - n) :=
      List.length_drop _ _
    intro hcon
    rw [hcon] at this
    simp at this
    omega

/-- Claim C3: for every query, if the supplied conversation history is
empty or no thread id is supplied, classify_query returns NEW_TOPIC with
confidence exactly 1.0, should_use_context false and context_weight 0.0
(query_classifier.py, lines 146-155). -/
theorem classify_query_no_history_new_topic
    (sem : String → String → ℚ) (embAvail : Bool) (thr : ℚ) (query : String)
    (history : List ConversationMessage) (tid : Option String)
    (h : history = [] ∨ tid = none) :
    classify_query sem embAvail thr query history tid =
      { query_type := .new_topic, confidence := 1,
        reasoning := "No conversation history - starting new topic",
        should_use_context := false, context_weight := 0 } := by
  rcases h with h | h <;> subst h <;> simp [classify_query, pyTruthy]

theorem classify_query_no_history_new_topic_witness :
    (([] : List ConversationMessage) = [] ∨ (some "thread_1" : Option String) = none) ∧
    classify_query (fun _ _ => 0) true (1/4) "What is machine learning?" [] (some "thread_1") =
      { query_type := .new_topic, confidence := 1,
        reasoning := "No conversation history - starting new topic",
        should_use_context := false, context_weight := 0 } :=
  ⟨Or.inl rfl,
   classify_query_no_history_new_topic (fun _ _ => 0) true (1/4)
     "What is machine learning?" [] (some "thread_1") (Or.inl rfl)⟩

/-- Claim C7: classify_query never propagates an exception: every internal
error is answered with the NEW_TOPIC fallback carrying confidence 0.1, a
reasoning string embedding the error text, should_use_context false and
context_weight 0.0, and in the absence of an internal error the run equals
the pure decision table (query_classifier.py, lines 236-249; the codomain
is a plain QueryClassificationResult, never an exception). -/
theorem classify_query_run_total_fallback :
    (∀ e sem embAvail thr query history tid,
      classify_query_run (some e) sem embAvail thr query history tid =
        { query_type := .new_topic, confidence := 1/10,
          reasoning := "Classification error: " ++ e ++ " - defaulting to new topic",
          should_use_context := false, context_weight := 0 }) ∧
    (∀ sem embAvail thr query history tid,
      classify_query_run none sem embAvail thr query history tid =
        classify_query sem embAvail thr query history tid) :=
  ⟨fun _ _ _ _ _ _ _ => rfl, fun _ _ _ _ _ _ => rfl⟩

theorem get_context_length_eq (s : MemState) (dbOk : Bool) (tid : String) (qt : QueryType) :
    (get_context_for_query s dbOk tid qt 6).length =
      if (get_conversation_history_st s dbOk tid 20).2.isEmpty then 0
      else match qt with
        | .new_topic => 0
        | .clarification => min 2 (get_conversation_history_st s dbOk tid 20).2.length
        | .related_topic => min 4 (get_conversation_history_st s dbOk tid 20).2.length
        | .follow_up => min 6 (get_conversation_history_st s dbOk tid 20).2.length := by
  unfold get_context_for_query get_context_for_query_st
  by_cases h0 : (get_conversation_history_st s dbOk tid 20).2.isEmpty
  · simp [h0]
  · cases qt <;>
      simp [h0, pyTail_length _ 2 (by norm_num), pyTail_length _ 4 (by norm_num),
        pyTail_length _ 6 (by norm_num)]

/-- Claim C8: for a fixed thread and state, the context window size is
monotonically non-decreasing across query types: NEW_TOPIC (always 0) ≤
CLARIFICATION (≤ 2) ≤ RELATED_TOPIC (≤ 4) ≤ FOLLOW_UP (≤ 6, at the
max_context_messages = 6 used by every call site)
(clean_memory_manager.py, get_context_for_query). -/
theorem get_context_for_query_monotone (s : MemState) (dbOk : Bool) (tid : String) :
    (get_context_for_query s dbOk tid .new_topic 6).length = 0 ∧
    (get_context_for_query s dbOk tid .clarification 6).length ≤ 2 ∧
    (get_context_for_query s dbOk tid .related_topic 6).length ≤ 4 ∧
    (get_context_for_query s dbOk tid .follow_up 6).length ≤ 6 ∧
    (get_context_for_query s dbOk tid .clarification 6).length ≤
      (get_context_for_query s dbOk tid .related_topic 6).length ∧
    (get_context_for_query s dbOk tid .related_topic 6).length ≤
      (get_context_for_query s dbOk tid .follow_up 6).length := by
  simp only [get_context_length_eq]
  by_cases h0 : (get_conversation_history_st s dbOk tid 20).2.isEmpty <;>
    simp [h0]

/-- Claim C9 counterexample: thread ids are not sortable by creation time.
The id minted at the strictly later clock second 1001 (with random hex
component 000000000000) sorts strictly before the id minted at second 1000
(with random hex component ffffffffffff), because the random hex component
precedes the timestamp in the id
(streamlined_manager.py, _generate_thread_id). -/
theorem generate_thread_id_not_time_sorted :
    generate_thread_id "000000000000" 1001 < generate_thread_id "ffffffffffff" 1000 := by
  rw [String.lt_iff_toList_lt]
  decide

/-- Claim C9 (amended): fresh thread ids embed the minting clock second as
the component after the final underscore ("thread_" + 12 random hex
characters + "_" + seconds), so the time is recoverable from the id, but
string order is dominated by the random hex component and therefore does
not follow creation-time order: among ids minted at strictly increasing
clock times, the later id can sort either after or before the earlier. -/
theorem generate_thread_id_time_suffix :
    (∀ hexPart t, hexPart.length = 12 →
      (generate_thread_id hexPart t).toList.drop 20 = (toString t).toList ∧
      (generate_thread_id hexPart t).toList.take 20 = ("thread_" ++ hexPart ++ "_").toList) ∧
    (∃ t1 t2 : Nat, t1 < t2 ∧
      generate_thread_id "aaaaaaaaaaaa" t1 < generate_thread_id "bbbbbbbbbbbb" t2) ∧
    (∃ t1 t2 : Nat, t1 < t2 ∧
      generate_thread_id "cccccccccccc" t2 < generate_thread_id "dddddddddddd" t1) := by
  refine ⟨?_,
    ⟨1000, 1001, by norm_num, by rw [String.lt_iff_toList_lt]; decide⟩,
    ⟨1000, 1001, by norm_num, by rw [String.lt_iff_toList_lt]; decide⟩⟩
  intro hexPart t hlen
  have hdata : (generate_thread_id hexPart t).toList =
      ("thread_" ++ hexPart ++ "_").toList ++ (toString t).toList := by
    simp [generate_thread_id, String.toList]
  have hlen20 : (("thread_" ++ hexPart ++ "_").toList).length = 20 := by
    rw [show ("thread_" ++ hexPart ++ "_").toList
        = "thread_".toList ++ hexPart.toList ++ "_".toList by simp [String.toList]]
    simp [List.length_append]
    exact hlen
  constructor
  · rw [hdata, ← hlen20, List.drop_left]
  · rw [hdata, ← hlen20, List.take_left]

theorem generate_thread_id_time_suffix_witness :
    ("abcdefabcdef" : String).length = 12 ∧
    ((generate_thread_id "abcdefabcdef" 1700000000).toList.drop 20 =
        (toString (1700000000 : Nat)).toList ∧
      (generate_thread_id "abcdefabcdef" 1700000000).toList.take 20 =
        ("thread_" ++ "abcdefabcdef" ++ "_").toList) :=
  ⟨by decide, generate_thread_id_time_suffix.1 "abcdefabcdef" 1700000000 (by decide)⟩

/-- The generic prompts that the padding loop would append to a list of k
questions (numbered k+1, k+2, ... up to 3). -/
def generic_padding (k : Nat) : List String :=
  (List.range (3 - k)).map (fun j => generic_variation_prompt (k + j + 1))

theorem padQuestions_eq_append (qs : List String) (h : qs.length < 3) :
    padQuestions qs = qs ++ generic_padding qs.length := by
  match qs with
  | [] => rfl
  | [a] => rfl
  | [a, b] => rfl
  | a :: b :: c :: rest => simp [List.length_cons] at h; omega

theorem padQuestions_of_ge (qs : List String) (h : 3 ≤ qs.length) :
    padQuestions qs = qs := by
  match qs with
  | [] => simp at h
  | [a] => simp at h
  | [a, b] => simp at h
  | a :: b :: c :: rest => rfl

theorem padQuestions_length (qs : List String) : 3 ≤ (padQuestions qs).length := by
  match qs with
  | [] => simp [padQuestions]
  | [a] => simp [padQuestions]
  | [a, b] => simp [padQuestions]
  | a :: b :: c :: rest => simp [padQuestions]

theorem parse_hyde_questions_length (s : String) : (parse_hyde_questions s).length = 3 := by
  unfold parse_hyde_questions
  rw [List.length_take]
  have := padQuestions_length (extract_questions (cleanLines s))
  omega

theorem generate_hyde_questions_length (query : String) (rEx : Option String)
    (rLLM : Except String String) :
    (generate_hyde_questions query rEx rLLM).length = 3 := by
  unfold generate_hyde_questions
  cases rEx with
  | some e => rfl
  | none => exact parse_hyde_questions_length _

theorem mapIdx_pair_fst (ps : List (String × String)) (f : Nat → String × String → String) :
    (ps.mapIdx (fun i kq => (kq.1, f i kq))).map Prod.fst = ps.map Prod.fst := by
  rw [List.mapIdx_eq_enum_map, List.map_map]
  have hfun : (Prod.fst ∘ Function.uncurry (fun i kq => (kq.1, f i kq))) =
      (Prod.fst ∘ (Prod.snd : Nat × (String × String) → String × String)) := rfl
  rw [hfun, ← List.map_map, List.enum_map_snd]

/-- Claim C2: the exploratory branch always returns a result set keyed by
exactly query_A, query_B, query_C — for every raw query, every reframing
outcome (including a failed reframing call) and every branch outcome, and
even on total failure (the outer except) — because _parse_hyde_questions
pads an extraction of fewer than three sub-questions with the generic
fallback prompts and truncates an extraction of more than three to the
first three, so exactly three questions are always zipped with the three
fixed keys. -/
theorem hyde_exactly_three_keys :
    (∀ query hydeExc reframeExc reframeLLM branchExc branchLLM,
      (generate_hyde_response query hydeExc reframeExc reframeLLM branchExc
        branchLLM).map Prod.fst = question_keys) ∧
    (∀ s, (parse_hyde_questions s).length = 3) ∧
    (∀ s, (extract_questions (cleanLines s)).length < 3 →
      parse_hyde_questions s =
        extract_questions (cleanLines s) ++
          generic_padding (extract_questions (cleanLines s)).length) ∧
    (∀ s, 3 ≤ (extract_questions (cleanLines s)).length →
      parse_hyde_questions s = (extract_questions (cleanLines s)).take 3) := by
  refine ⟨?_, parse_hyde_questions_length, ?_, ?_⟩
  · intro query hydeExc reframeExc reframeLLM branchExc branchLLM
    unfold generate_hyde_response
    cases hydeExc with
    | some e => simp [question_keys]
    | none =>
        rw [mapIdx_pair_fst, List.map_fst_zip]
        rw [generate_hyde_questions_length]
        decide
  · intro s h
    unfold parse_hyde_questions
    rw [padQuestions_eq_append _ h]
    apply List.take_of_length_le
    simp [generic_padding]
    omega
  · intro s h
    unfold parse_hyde_questions
    rw [padQuestions_of_ge _ h]

theorem hyde_exactly_three_keys_witness :
    (extract_questions (cleanLines "")).length < 3 ∧
    parse_hyde_questions "" =
      extract_questions (cleanLines "") ++
        generic_padding (extract_questions (cleanLines "")).length ∧
    3 ≤ (extract_questions (cleanLines "1. Aa?\n2. Bb?\n3. Cc?\n4. Dd?")).length ∧
    parse_hyde_questions "1. Aa?\n2. Bb?\n3. Cc?\n4. Dd?" =
      (extract_questions (cleanLines "1. Aa?\n2. Bb?\n3. Cc?\n4. Dd?")).take 3 ∧
    (generate_hyde_response "What is love?" none none (.error "llm down")
      (fun _ => none) (fun _ _ => .ok "resp")).map Prod.fst = question_keys :=
  ⟨by decide,
   hyde_exactly_three_keys.2.2.1 "" (by decide),
   by decide,
   hyde_exactly_three_keys.2.2.2 "1. Aa?\n2. Bb?\n3. Cc?\n4. Dd?" (by decide),
   hyde_exactly_three_keys.1 "What is love?" none none (.error "llm down")
     (fun _ => none) (fun _ _ => .ok "resp")⟩

/-- The query of end-to-end scenario 3, built without a literal apostrophe. -/
def query_i_dont_understand : String := "I don" ++ String.mk [apos] ++ "t understand"

/-- A prior exchange: in this code base one ConversationMessage stores the
whole user/AI exchange. -/
def example_prior_message : ConversationMessage :=
  { message_id := "msg_1", thread_id := "t1",
    user_query := "What is machine learning?",
    ai_response := "Machine learning is a field of AI.",
    timestamp := "2024-01-01T00:00:00Z", query_type := .new_topic,
    context_used := 0, metadata := [] }

/-- Claim C6 counterexample: with one prior exchange in the thread, the
query "I don't understand" is NOT classified as CLARIFICATION.  It matches
only one of the four clarification regexes, so its clarification score is
1/4 = 0.25, which does not exceed the 0.3 threshold; with no follow-up
pattern hits and semantic similarity 0 the classifier lands in the default
branch (FOLLOW_UP with confidence 0.3). -/
theorem clarification_scenario_counterexample :
    (classify_query (fun _ _ => 0) true (1/4) query_i_dont_understand
      [example_prior_message] (some "t1")).query_type ≠ QueryType.clarification := by
  have hclar : check_patterns query_i_dont_understand clarification_patterns = 1/4 := by
    unfold check_patterns
    norm_num
    rw [show (clarification_patterns.filter
      (pattern_matches (lowerChars query_i_dont_understand))).length = 1 from rfl]
    norm_num [clarification_patterns]
  have hfup : check_patterns query_i_dont_understand follow_up_patterns = 0 := by
    unfold check_patterns
    norm_num
    intro _
    left
    decide
  have hnt : check_patterns query_i_dont_understand new_topic_indicators = 0 := by
    unfold check_patterns
    norm_num
    intro _
    left
    decide
  have hsem : calculate_semantic_similarity true (fun _ _ => 0) query_i_dont_understand
      [example_prior_message] = 0 := rfl
  unfold classify_query
  simp only [hclar, hfup, hnt, hsem]
  norm_num [pyTruthy]
  decide

/-- A query that matches two clarification regexes (score 0.5 > 0.3). -/
def query_clarify : String :=
  "I don" ++ String.mk [apos] ++ "t understand, can you clarify?"

/-- Claim C6 (amended): a query matching at least two of the four
clarification regexes — such as "I don't understand, can you clarify?",
whose clarification score is 0.5 > 0.3 — is classified CLARIFICATION
(context weight 0.9, should_use_context true) whenever there is any
history and a thread id, and for a thread whose retrieved history holds at
least two messages (i.e. at least two prior exchanges, since one stored
message is a whole exchange) the CLARIFICATION context window has exactly
2 messages. -/
theorem clarification_needs_two_markers
    (sem : String → String → ℚ) (embAvail : Bool)
    (hist : List ConversationMessage) (t : String)
    (s : MemState) (dbOk : Bool)
    (hh : hist ≠ []) (ht : t ≠ "")
    (h2 : 2 ≤ (get_conversation_history s dbOk t 20).length) :
    (classify_query sem embAvail (1/4) query_clarify hist (some t)).query_type =
      QueryType.clarification ∧
    (classify_query sem embAvail (1/4) query_clarify hist (some t)).context_weight = 9/10 ∧
    (classify_query sem embAvail (1/4) query_clarify hist (some t)).should_use_context = true ∧
    (get_context_for_query s dbOk t .clarification 6).length = 2 := by
  have hclar : check_patterns query_clarify clarification_patterns = 1/2 := by
    unfold check_patterns
    norm_num
    rw [show (clarification_patterns.filter
      (pattern_matches (lowerChars query_clarify))).length = 2 from rfl]
    norm_num [clarification_patterns]
  have hhist : hist.isEmpty = false := by
    simpa [List.isEmpty_iff] using hh
  have htid : pyTruthy (some t) = true := by
    simp only [pyTruthy, Bool.not_eq_true']
    rw [Bool.eq_false_iff]
    simpa [String.isEmpty_iff] using ht
  have hcl : classify_query sem embAvail (1/4) query_clarify hist (some t) =
      { query_type := .clarification, confidence := 1/2,
        reasoning := "Clarification request detected",
        should_use_context := true, context_weight := 9/10 } := by
    unfold classify_query
    rw [hhist, htid, hclar]
    norm_num
  refine ⟨by rw [hcl], by rw [hcl], by rw [hcl], ?_⟩
  rw [get_context_length_eq]
  have hne : (get_conversation_history_st s dbOk t 20).2.isEmpty = false := by
    have : (get_conversation_history_st s dbOk t 20).2 ≠ [] := by
      intro hcon
      rw [show get_conversation_history s dbOk t 20
        = (get_conversation_history_st s dbOk t 20).2 from rfl, hcon] at h2
      simp at h2
    simpa [List.isEmpty_iff] using this
  rw [hne]
  simp only [Bool.false_eq_true, if_false]
  rw [show get_conversation_history s dbOk t 20
    = (get_conversation_history_st s dbOk t 20).2 from rfl] at h2
  omega

/-- A second prior exchange for the amended-claim witness. -/
def example_prior_message_2 : ConversationMessage :=
  { message_id := "msg_2", thread_id := "t1",
    user_query := "Can you give me examples?",
    ai_response := "Sure, here are two examples.",
    timestamp := "2024-01-01T00:01:00Z", query_type := .follow_up,
    context_used := 2, metadata := [] }

/-- A state whose cache holds a thread with two messages. -/
def witness_two_message_state : MemState :=
  { cache := [("t1", [example_prior_message, example_prior_message_2])], db := [] }

theorem clarification_needs_two_markers_witness :
    ([example_prior_message] : List ConversationMessage) ≠ [] ∧
    ("t1" : String) ≠ "" ∧
    2 ≤ (get_conversation_history witness_two_message_state true "t1" 20).length ∧
    ((classify_query (fun _ _ => 0) true (1/4) query_clarify [example_prior_message]
        (some "t1")).query_type = QueryType.clarification ∧
      (classify_query (fun _ _ => 0) true (1/4) query_clarify [example_prior_message]
        (some "t1")).context_weight = 9/10 ∧
      (classify_query (fun _ _ => 0) true (1/4) query_clarify [example_prior_message]
        (some "t1")).should_use_context = true ∧
      (get_context_for_query witness_two_message_state true "t1" .clarification 6).length = 2) :=
  ⟨by decide, by decide, by decide,
   clarification_needs_two_markers (fun _ _ => 0) true [example_prior_message] "t1"
     witness_two_message_state true (by decide) (by decide) (by decide)⟩

theorem analyze_is_continuation_decide (mem : String → List String)
    (sem : String → String → ℚ) (thr : ℚ) (q : String) (tid : Option String)
    (lim : Nat) :
    (analyze_query_relevance mem sem thr q tid lim).is_continuation =
      decide ((analyze_query_relevance mem sem thr q tid lim).score ≥ thr) := rfl

/-- Claim C5: with a (truthy) thread id and nonempty memory, the relevance
score of analyze_query_relevance equals the weighted sum
(0.7 x embedding cosine similarity + 0.3 x lexical word-overlap ratio)
scaled by 10 to the configured 0-10 decision range, the lexical ratio is
bounded 0-1, and is_continuation holds exactly when the score reaches the
configured continuation threshold; with no thread id, an empty-string
thread id, or empty memory contents the score is 0 and (for any positive
threshold) is_continuation is false
(context_manager.py, analyze_query_relevance). -/
theorem analyze_query_relevance_weighted_sum
    (memContents : String → List String) (sem : String → String → ℚ)
    (thr : ℚ) (q : String) (t : String)
    (ht : t ≠ "") (hmem : memContents t ≠ []) :
    (analyze_query_relevance memContents sem thr q (some t) 5).score =
      combined_relevance_score
        (sem q (String.intercalate " " (pyTail (memContents t) 10)))
        (word_overlap_ratio q (String.intercalate " " (pyTail (memContents t) 10))) ∧
    ((analyze_query_relevance memContents sem thr q (some t) 5).is_continuation = true ↔
      thr ≤ (analyze_query_relevance memContents sem thr q (some t) 5).score) ∧
    0 ≤ word_overlap_ratio q (String.intercalate " " (pyTail (memContents t) 10)) ∧
    word_overlap_ratio q (String.intercalate " " (pyTail (memContents t) 10)) ≤ 1 ∧
    (∀ thr2 q2, 0 < thr2 →
      (analyze_query_relevance memContents sem thr2 q2 none 5).score = 0 ∧
      (analyze_query_relevance memContents sem thr2 q2 none 5).is_continuation = false) ∧
    (∀ thr2 q2 t2, 0 < thr2 → memContents t2 = [] → t2 ≠ "" →
      (analyze_query_relevance memContents sem thr2 q2 (some t2) 5).score = 0 ∧
      (analyze_query_relevance memContents sem thr2 q2 (some t2) 5).is_continuation = false) := by
  have htid : pyTruthy (some t) = true := by
    simp only [pyTruthy, Bool.not_eq_true']
    rw [Bool.eq_false_iff]
    simpa [String.isEmpty_iff] using ht
  have hmem2 : (memContents t).isEmpty = false := by
    simpa [List.isEmpty_iff] using hmem
  have hctx : (pyTail (memContents t) (5 * 2)).isEmpty = false := by
    have := pyTail_ne_nil (memContents t) (5 * 2) hmem
    simpa [List.isEmpty_iff] using this
  have hscore : (analyze_query_relevance memContents sem thr q (some t) 5).score =
      combined_relevance_score
        (sem q (String.intercalate " " (pyTail (memContents t) 10)))
        (word_overlap_ratio q (String.intercalate " " (pyTail (memContents t) 10))) := by
    unfold analyze_query_relevance
    rw [htid]
    simp only [if_true, Option.getD_some]
    rw [hmem2, hctx]
    norm_num
  refine ⟨hscore, ?_, ?_, ?_, ?_, ?_⟩
  · rw [analyze_is_continuation_decide]
    simp [ge_iff_le]
  · unfold word_overlap_ratio
    split
    · apply le_min
      · positivity
      · norm_num
    · norm_num
  · unfold word_overlap_ratio
    split
    · exact min_le_right _ _
    · norm_num
  · intro thr2 q2 hthr2
    have h0 : (analyze_query_relevance memContents sem thr2 q2 none 5).score = 0 := rfl
    refine ⟨h0, ?_⟩
    rw [analyze_is_continuation_decide, h0]
    simp only [ge_iff_le, decide_eq_false_iff_not]
    exact not_le.mpr hthr2
  · intro thr2 q2 t2 hthr2 hmem0 ht2
    have htid2 : pyTruthy (some t2) = true := by
      simp only [pyTruthy, Bool.not_eq_true']
      rw [Bool.eq_false_iff]
      simpa [String.isEmpty_iff] using ht2
    have hscore0 : (analyze_query_relevance memContents sem thr2 q2 (some t2) 5).score = 0 := by
      unfold analyze_query_relevance
      rw [htid2]
      simp [hmem0]
    refine ⟨hscore0, ?_⟩
    rw [analyze_is_continuation_decide, hscore0]
    simp only [ge_iff_le, decide_eq_false_iff_not]
    exact not_le.mpr hthr2

/-- LangChain memory contents for the relevance witness thread. -/
def witness_mem_contents (t : String) : List String :=
  if t = "thread_w" then ["hello world from the assistant"] else []

/-- A constant embedding-cosine oracle for the relevance witness. -/
def witness_sem (_q _ctx : String) : ℚ := 1/2

theorem analyze_query_relevance_weighted_sum_witness :
    ("thread_w" : String) ≠ "" ∧
    witness_mem_contents "thread_w" ≠ [] ∧
    (analyze_query_relevance witness_mem_contents witness_sem 4 "hello"
        (some "thread_w") 5).score =
      combined_relevance_score
        (witness_sem "hello"
          (String.intercalate " " (pyTail (witness_mem_contents "thread_w") 10)))
        (word_overlap_ratio "hello"
          (String.intercalate " " (pyTail (witness_mem_contents "thread_w") 10))) ∧
    ((analyze_query_relevance witness_mem_contents witness_sem 4 "hello"
        (some "thread_w") 5).is_continuation = true ↔
      4 ≤ (analyze_query_relevance witness_mem_contents witness_sem 4 "hello"
        (some "thread_w") 5).score) :=
  ⟨by decide, by decide,
   (analyze_query_relevance_weighted_sum witness_mem_contents witness_sem 4 "hello"
     "thread_w" (by decide) (by decide)).1,
   (analyze_query_relevance_weighted_sum witness_mem_contents witness_sem 4 "hello"
     "thread_w" (by decide) (by decide)).2.1⟩

theorem filter_pyTail_append_singleton (l : List α) (m : α) (p : α → Bool)
    (hl : ∀ x ∈ l, p x = false) (hm : p m = true) (n : Nat) :
    (pyTail (l ++ [m]) n).filter p = [m] := by
  obtain ⟨k, hk, heq⟩ : ∃ k, k ≤ l.length ∧ pyTail (l ++ [m]) n = l.drop k ++ [m] := by
    by_cases hn : n = 0
    · exact ⟨0, Nat.zero_le _, by simp [hn, pyTail_zero]⟩
    · refine ⟨(l.length + 1) - n, by omega, ?_⟩
      unfold pyTail
      rw [if_neg hn]
      rw [List.length_append]
      simp only [List.length_singleton]
      rw [List.drop_append_of_le_length (by omega)]
  rw [heq, List.filter_append]
  have h1 : (l.drop k).filter p = [] := by
    rw [List.filter_eq_nil_iff]
    intro a ha
    simp [hl a (List.drop_subset _ _ ha)]
  rw [h1]
  simp [hm]

theorem assocSet_key_val {α : Type} (l : List (String × α)) (k : String) (v : α) :
    ∀ p ∈ assocSet l k v, p.1 == k → p = (k, v) := by
  intro p hp hkey
  unfold assocSet at hp
  split at hp
  · obtain ⟨q, hq, rfl⟩ := List.mem_map.mp hp
    by_cases hq1 : q.1 == k
    · simp [hq1]
    · rw [if_neg hq1] at hkey ⊢
      exact absurd hkey (by simpa using hq1)
  · next hany =>
    rcases List.mem_append.mp hp with h | h
    · simp only [Bool.not_eq_true, List.any_eq_false] at hany
      exact absurd hkey (by simpa using hany p h)
    · simpa using h

theorem assocGet_assocSet_self {α : Type} (l : List (String × α)) (k : String) (v : α) :
    assocGet (assocSet l k v) k = some v := by
  have hex : ∃ p ∈ assocSet l k v, p.1 == k := by
    unfold assocSet
    split
    · next hany =>
      obtain ⟨q, hq, hq1⟩ := List.any_eq_true.mp hany
      exact ⟨(k, v), List.mem_map.mpr ⟨q, hq, by simp [hq1]⟩, by simp⟩
    · exact ⟨(k, v), List.mem_append.mpr (Or.inr (by simp)), by simp⟩
  obtain ⟨p, hp, hkey⟩ := hex
  have hsome : ((assocSet l k v).find? (fun q => q.1 == k)).isSome := by
    rw [List.find?_isSome]
    exact ⟨p, hp, hkey⟩
  obtain ⟨q, hq⟩ := Option.isSome_iff_exists.mp hsome
  have hqmem := List.mem_of_find?_eq_some hq
  have hqkey := List.find?_some hq
  have := assocSet_key_val l k v q hqmem hqkey
  unfold assocGet
  rw [hq, this]
  rfl

theorem assocGet_drop_assocSet {α : Type} (l : List (String × α)) (k : String) (v : α)
    (j : Nat) (c : α) (h : assocGet ((assocSet l k v).drop j) k = some c) : c = v := by
  unfold assocGet at h
  obtain ⟨q, hq, hq2⟩ := Option.map_eq_some'.mp h
  have hmem : q ∈ assocSet l k v := List.drop_subset _ _ (List.mem_of_find?_eq_some hq)
  have hkey := List.find?_some hq
  have := assocSet_key_val l k v q hmem hkey
  rw [this] at hq2
  simpa using hq2.symm

theorem cleanup_cache_eq_drop (c : List (String × List ConversationMessage)) :
    ∃ j, cleanup_cache c = c.drop j := by
  unfold cleanup_cache
  split
  · exact ⟨_, rfl⟩
  · exact ⟨0, by simp⟩

/-- Claim C1: add_interaction followed by get_conversation_history returns
a history in which the new interaction appears as exactly one message (the
filter on its fresh message id is a singleton), and that message carries
exactly one AI response string — the chosen response passed to
add_interaction (ConversationMessage has a single ai_response field).
Hypotheses: the uuid-generated message id is fresh for the thread (its
cache entry and its stored document), persistence succeeds (saveOk true),
and the durable read succeeds (dbGetOk true, needed only when the bounded
cache evicted the thread). -/
theorem add_interaction_roundtrip
    (s : MemState) (getOk : Bool)
    (freshId now tid uq ar : String) (qt : QueryType) (cu : Nat)
    (md : List (String × String)) (limit : Int)
    (hfresh_cache : ∀ x ∈ (assocGet s.cache tid).getD [], x.message_id ≠ freshId)
    (hfresh_db : ∀ r ∈ ((assocGet s.db tid).map ThreadDoc.messages).getD [],
      r.message_id ≠ freshId) :
    (add_interaction s getOk true freshId now tid uq ar qt cu md).2 =
      Except.ok (⟨freshId, tid, uq, ar, now, qt, cu, md⟩ : ConversationMessage) ∧
    (get_conversation_history
        (add_interaction s getOk true freshId now tid uq ar qt cu md).1 true tid
        limit).filter (fun x => x.message_id == freshId) =
      [(⟨freshId, tid, uq, ar, now, qt, cu, md⟩ : ConversationMessage)] := by
  set msg : ConversationMessage := ⟨freshId, tid, uq, ar, now, qt, cu, md⟩ with hmsg
  set old : List ConversationMessage := (assocGet s.cache tid).getD [] with hold
  refine ⟨rfl, ?_⟩
  have hmsgkey : (fun x => x.message_id == freshId) msg = true := by simp [hmsg]
  have hcache : (add_interaction s getOk true freshId now tid uq ar qt cu md).1.cache =
      cleanup_cache (assocSet s.cache tid (old ++ [msg])) := rfl
  have hdb : ∃ doc1 : ThreadDoc,
      (add_interaction s getOk true freshId now tid uq ar qt cu md).1.db =
        assocSet s.db tid doc1 ∧
      ∃ X, doc1.messages = X ++ [rawOfMessage msg] ∧
        ∀ r ∈ X, r.message_id ≠ freshId := by
    by_cases hg : getOk
    · cases hdoc : assocGet s.db tid with
      | none =>
          simp only [add_interaction, persist_message, hg, hdoc, if_true]
          exact ⟨_, rfl, [], rfl, by simp⟩
      | some d =>
          simp only [add_interaction, persist_message, hg, hdoc, if_true]
          refine ⟨_, rfl, d.messages, rfl, ?_⟩
          intro r hr
          apply hfresh_db
          simp [hdoc]
          exact hr
    · simp only [add_interaction, persist_message, hg, if_false, Bool.false_eq_true]
      exact ⟨_, rfl, [], rfl, by simp⟩
  have hfreshb : ∀ x ∈ old, (fun y => y.message_id == freshId) x = false := by
    intro x hx
    simpa using hfresh_cache x hx
  unfold get_conversation_history get_conversation_history_st
  cases hc : assocGet (add_interaction s getOk true freshId now tid uq ar qt cu md).1.cache tid with
  | some cached =>
      have hcached : cached = old ++ [msg] := by
        rw [hcache] at hc
        obtain ⟨j, hj⟩ := cleanup_cache_eq_drop (assocSet s.cache tid (old ++ [msg]))
        rw [hj] at hc
        exact assocGet_drop_assocSet _ _ _ _ _ hc
      have hne : cached.isEmpty = false := by
        rw [hcached]
        simp [List.isEmpty_iff]
      simp only [hne, Bool.not_false, if_true]
      by_cases hlim : limit > 0
      · simp only [hlim, if_true]
        rw [hcached]
        exact filter_pyTail_append_singleton old msg _ hfreshb hmsgkey limit.toNat
      · simp only [hlim, if_false]
        rw [hcached, ← pyTail_zero (old ++ [msg])]
        exact filter_pyTail_append_singleton old msg _ hfreshb hmsgkey 0
  | none =>
      obtain ⟨doc1, hdbeq, X, hX, hXfresh⟩ := hdb
      simp only []
      unfold load_messages_from_db
      rw [hdbeq, assocGet_assocSet_self]
      simp only [Bool.not_true, Bool.false_eq_true, if_false]
      rw [hX]
      have hconv : messageOfRaw tid (rawOfMessage msg) = msg := rfl
      have hfreshX : ∀ x ∈ X.map (messageOfRaw tid),
          (fun y => y.message_id == freshId) x = false := by
        intro x hx
        obtain ⟨r, hr, rfl⟩ := List.mem_map.mp hx
        simpa [messageOfRaw] using hXfresh r hr
      by_cases hlim : limit > 0
      · simp only [hlim, if_true]
        rw [← pyTail_map, List.map_append]
        simp only [List.map_singleton, hconv]
        exact filter_pyTail_append_singleton (X.map (messageOfRaw tid)) msg _
          hfreshX hmsgkey limit.toNat
      · simp only [hlim, if_false]
        rw [List.map_append]
        simp only [List.map_singleton, hconv]
        rw [← pyTail_zero (X.map (messageOfRaw tid) ++ [msg])]
        exact filter_pyTail_append_singleton (X.map (messageOfRaw tid)) msg _
          hfreshX hmsgkey 0

theorem add_interaction_roundtrip_witness :
    (∀ x ∈ (assocGet (MemState.mk [] []).cache "t1").getD [],
      x.message_id ≠ "msg_w") ∧
    (∀ r ∈ ((assocGet (MemState.mk [] []).db "t1").map ThreadDoc.messages).getD [],
      r.message_id ≠ "msg_w") ∧
    ((add_interaction (MemState.mk [] []) true true "msg_w" "ts" "t1" "hi" "hello"
        .new_topic 0 []).2 =
      Except.ok (⟨"msg_w", "t1", "hi", "hello", "ts", .new_topic, 0, []⟩ :
        ConversationMessage) ∧
    (get_conversation_history
        (add_interaction (MemState.mk [] []) true true "msg_w" "ts" "t1" "hi" "hello"
          .new_topic 0 []).1 true "t1" 10).filter
        (fun x => x.message_id == "msg_w") =
      [(⟨"msg_w", "t1", "hi", "hello", "ts", .new_topic, 0, []⟩ :
        ConversationMessage)]) :=
  ⟨by simp [assocGet], by simp [assocGet],
   add_interaction_roundtrip (MemState.mk [] []) true "msg_w" "ts" "t1" "hi" "hello"
     .new_topic 0 [] 10 (by simp [assocGet]) (by simp [assocGet])⟩

theorem pyTail_nil (n : Nat) : pyTail ([] : List α) n = [] := by
  unfold pyTail
  split <;> simp

/-- The full message list that one get_conversation_history call slices:
the nonempty cached entry when present, otherwise everything the durable
document holds (in stored order, oldest first, most recent last). -/
def thread_source_list (s : MemState) (dbGetOk : Bool) (tid : String) :
    List ConversationMessage :=
  match assocGet s.cache tid with
  | some cached =>
      if !cached.isEmpty then cached else load_messages_from_db s dbGetOk tid 0
  | none => load_messages_from_db s dbGetOk tid 0

theorem load_messages_from_db_eq (s : MemState) (dbOk : Bool) (tid : String)
    (limit : Int) :
    load_messages_from_db s dbOk tid limit =
      (if limit > 0 then pyTail (load_messages_from_db s dbOk tid 0) limit.toNat
       else load_messages_from_db s dbOk tid 0) := by
  unfold load_messages_from_db
  by_cases hdb : dbOk
  · simp only [hdb, Bool.not_true, Bool.false_eq_true, if_false]
    cases hdoc : assocGet s.db tid with
    | none => simp [pyTail_nil]
    | some doc =>
        by_cases hlim : limit > 0
        · simp only [hlim, if_true, show ¬((0 : Int) > 0) by omega, if_false]
          rw [pyTail_map]
        · simp only [hlim, if_false, show ¬((0 : Int) > 0) by omega]
  · simp [hdb, pyTail_nil]

theorem get_conversation_history_eq (s : MemState) (dbOk : Bool) (tid : String)
    (limit : Int) :
    get_conversation_history s dbOk tid limit =
      (if limit > 0 then pyTail (thread_source_list s dbOk tid) limit.toNat
       else thread_source_list s dbOk tid) := by
  unfold get_conversation_history get_conversation_history_st thread_source_list
  cases hc : assocGet s.cache tid with
  | some cached =>
      by_cases hne : cached.isEmpty
      · simp only [hne, Bool.not_true, Bool.false_eq_true, if_false]
        exact load_messages_from_db_eq s dbOk tid limit
      · simp only [hne, Bool.not_false, if_true]
  | none =>
      simp only []
      exact load_messages_from_db_eq s dbOk tid limit

/-- Claim C10: get_conversation_history is total (the model returns a
plain list because every exception path of the source is caught): it
returns a suffix of the thread's underlying message list — hence at most
`limit` messages for a positive limit, ordered most-recent-last — and when
the durable read fails it returns either the empty list (so a read failure
is indistinguishable from an empty thread) or the nonempty cached entry
that made the read unnecessary. -/
theorem get_conversation_history_total (s : MemState) (dbOk : Bool) (tid : String) (limit : Int) :
    (get_conversation_history s dbOk tid limit) <:+ thread_source_list s dbOk tid ∧
    (get_conversation_history s dbOk tid limit).length ≤
      (if limit > 0 then limit.toNat else (thread_source_list s dbOk tid).length) ∧
    (get_conversation_history s false tid limit = [] ∨
      ∃ c, assocGet s.cache tid = some c ∧ c ≠ []) := by
  refine ⟨?_, ?_, ?_⟩
  · rw [get_conversation_history_eq]
    by_cases hlim : limit > 0
    · rw [if_pos hlim]
      exact pyTail_suffix _ _
    · rw [if_neg hlim]
  · rw [get_conversation_history_eq]
    by_cases hlim : limit > 0
    · rw [if_pos hlim, if_pos hlim]
      rw [pyTail_length _ _ (by omega)]
      exact Nat.min_le_left _ _
    · rw [if_neg hlim, if_neg hlim]
  · by_cases hc : ∃ c, assocGet s.cache tid = some c ∧ c ≠ []
    · exact Or.inr hc
    · left
      have hsrc : thread_source_list s false tid = [] := by
        unfold thread_source_list
        cases hcc : assocGet s.cache tid with
        | some cached =>
            have hemp : cached.isEmpty = true := by
              by_contra hne
              exact hc ⟨cached, hcc, by simpa [List.isEmpty_iff] using hne⟩
            simp [hemp, load_messages_from_db]
        | none => simp [load_messages_from_db]
      rw [get_conversation_history_eq, hsrc]
      by_cases hlim : limit > 0
      · rw [if_pos hlim, pyTail_nil]
      · rw [if_neg hlim]

/-- Claim C4: persistence failures are re-raised by add_interaction, and
they are the only modelled failures that cross the process_query boundary
as a failure (the "error" key of the returned dictionary).  The first
conjunct quantifies over every oracle combination with a succeeding save —
including a failing classifier, a failing reframing call, failing
exploratory branches, a failing contextual call and an unconfigured
provider (ctxLLM/branchLLM returning the configuration ValueError) — and
the result still carries no error: all of those are absorbed into
degraded-but-successful responses.  With a failing save the error field is
exactly the re-raised persistence error. -/
theorem process_query_error_boundary :
    (∀ (s : MemState) (o : Oracles) (query : String) (threadId : Option String)
      (uid prov ftid fmid now : String),
      ((process_query s { o with persistSaveOk := true } query threadId uid prov
        ftid fmid now).2).error = none) ∧
    (∀ (s : MemState) (o : Oracles) (query : String) (threadId : Option String)
      (uid prov ftid fmid now : String),
      ((process_query s { o with persistSaveOk := false } query threadId uid prov
        ftid fmid now).2).error = some db_save_error) ∧
    (∀ s getOk freshId now tid uq ar qt cu md,
      (add_interaction s getOk false freshId now tid uq ar qt cu md).2 =
        Except.error db_save_error) :=
  ⟨fun _ _ _ _ _ _ _ _ _ => rfl, fun _ _ _ _ _ _ _ _ _ => rfl,
   fun _ _ _ _ _ _ _ _ _ _ => rfl⟩
